import Mathlib

/-!
Verification of the clippy backend protocol core.

This file gives a shallow embedding of:
* `send_cmd` and the discovery handshake of `classes` from
  `src/py/src/clippy/backends/monolith/__init__.py`,
* the method-installation loop of `_create_class` and the by-reference /
  selector post-processing of the generated method `m` from the same file,
* `_stream_exec`, `_validate` and `_run` from
  `src/src/clippy/backends/fs/execution.py`,
* the constants of `src/py/src/clippy/backends/monolith/constants.py`,
and proves the behavioural properties claimed in the specification.

Python values decoded from JSON are modelled as `JVal`; Python dicts appear
as association lists in insertion order with pairwise-distinct keys (the
invariant guaranteed by `json.loads`, which keeps the last binding of a
duplicated key).  Exceptions are modelled with `Except PyErr`.  The
non-deterministic interleaving produced by `select` is modelled by an
explicit trace of stream events supplied as input.
-/

/-- A JSON value as produced by `json.loads`.  Object entries are kept in
insertion order; keys are pairwise distinct. -/
inductive JVal where
  | null
  | bool (b : Bool)
  | num (n : Int)
  | str (s : String)
  | arr (elems : List JVal)
  | obj (entries : List (String × JVal))

/-- Python dictionary lookup `d.get(k)` / `d[k]` on the entry list. -/
def jlookup : List (String × JVal) → String → Option JVal
  | [], _ => none
  | (k', v) :: rest, k => if k' = k then some v else jlookup rest k

/-- Python key-membership test `k in d`. -/
def hasKey (m : List (String × JVal)) (k : String) : Bool :=
  (jlookup m k).isSome

/-- Python dictionary item assignment `d[k] = v`: replaces the value in
place if the key is present (keeping its position), else appends. -/
def setKey : List (String × JVal) → String → JVal → List (String × JVal)
  | [], k, v => [(k, v)]
  | (k', v') :: rest, k, v =>
      if k' = k then (k, v) :: rest else (k', v') :: setKey rest k v

/-- Python `base.update(args)`: every binding of `args` is assigned into
`base` in order, overriding existing keys. -/
def dictUpdate (base args : List (String × JVal)) : List (String × JVal) :=
  args.foldl (fun m kv => setKey m kv.1 kv.2) base

/-- Python truthiness of a decoded JSON value (`if not d:` etc.). -/
def truthy : JVal → Bool
  | .null => false
  | .bool b => b
  | .num n => n != 0
  | .str s => s ≠ ""
  | .arr xs => !xs.isEmpty
  | .obj m => !m.isEmpty

/-- Python exceptions raised (or constructed) by the embedded code. -/
inductive PyErr where
  | clippyTypeError
  | clippyValidationError (stderr : Option String)
  | clippyBackendError (stderr : Option String)
  | clippyInvalidSelectorError (msg : String)
  | clippyConfigurationError (msg : String)
  | jsonDecodeError (raw : String)
  | attributeError (attr : String)
  | nameError (unbound : String)
  | assertionError
  | typeError
  | keyError (key : String)
deriving DecidableEq, Repr

/-! ## Constants (`src/py/src/clippy/backends/monolith/constants.py`) -/

def STATUS_KEY : String := "_status"

def READY_TIMEOUT : ℚ := 5

def SELECT_TIMEOUT : ℚ := 2

def RESULTS_KEY : String := "results"

/-- `CLASSES = ("_getclasses", "_classes")`. -/
def CLASSES : String × String := ("_getclasses", "_classes")

/-- Python equality `d == {"_status": tag}` between a decoded value and one
of the single-entry status dicts `STATUS_READY` / `STATUS_START` /
`STATUS_END`.  Under the distinct-keys invariant a decoded dict equals a
one-entry dict exactly when it consists of that single entry; every
non-dict decoded value compares unequal to a dict. -/
def isStatus (d : JVal) (tag : String) : Bool :=
  match d with
  | .obj [(k, .str v)] => k = STATUS_KEY && v = tag
  | _ => false

/-- Python `repr`/f-string formatting of a decoded value, used only to build
diagnostic message strings. -/
def pyRepr : JVal → String
  | .null => "None"
  | .bool true => "True"
  | .bool false => "False"
  | .num n => toString n
  | .str s =>
      let q := String.singleton (Char.ofNat 39)
      q ++ s ++ q
  | .arr xs => "[" ++ String.intercalate ", " (xs.attach.map (fun x => pyRepr x.1)) ++ "]"
  | .obj m =>
      let q := String.singleton (Char.ofNat 39)
      "\x7b" ++ String.intercalate ", "
        (m.attach.map (fun e => q ++ e.1.1 ++ q ++ ": " ++ pyRepr e.1.2)) ++ "\x7d"
termination_by v => sizeOf v
decreasing_by
  · have := List.sizeOf_lt_of_mem x.2
    simp only [JVal.arr.sizeOf_spec]
    omega
  · have h1 := List.sizeOf_lt_of_mem e.2
    have h2 : sizeOf e.1.2 < sizeOf e.1 := by
      obtain ⟨a, b⟩ := e.1
      simp only [Prod.mk.sizeOf_spec]
      omega
    simp only [JVal.obj.sizeOf_spec]
    omega

/-! ## The monolith exchange: `send_cmd` -/

/-- One line read from the backend's output stream: either raw text that
`json.loads` rejects, or a successfully decoded value. -/
inductive OutLine where
  | undecodable (raw : String)
  | decoded (v : JVal)

/-- The observable behaviour of the spawned backend during one `send_cmd`
exchange: the outcome of the first `select` call (the error stream is
checked first by the code), the line delivered on the error stream if it
was readable, the sequence of lines subsequently read from the output
stream (exhaustion of the list models end-of-file, where `readline`
returns the empty string), and the outcome of the final zero-timeout
`select` drain of the error stream together with the line it would read. -/
structure ExchTrace where
  firstStderrReady : Bool
  stderrLine : String
  firstStdoutReady : Bool
  stdoutLines : List OutLine
  finalStderrReady : Bool
  finalStderrLine : String

/-- `send_d = {"cmd": cmd[0]}; send_d.update(args)` — the payload handed to
`json.dumps` (the wire codec) by `send_cmd`. -/
def send_d (cmd : String × String) (args : List (String × JVal)) : List (String × JVal) :=
  dictUpdate [("cmd", .str cmd.1)] args

/-- Outcome of the `while True` read loop of `send_cmd`: either the
accumulated list of result dictionaries, one of the controlled failure
returns `({}, message)`, or an uncaught Python exception. -/
inductive LoopOut where
  | done (results : List JVal)
  | fail (msg : String)
  | exc (e : PyErr)

/-- The `while True` loop of `send_cmd`: reads lines until `STATUS_END`,
printing (and discarding) `update` messages and appending every other
dictionary to `results`.  A non-dict decoded line first compares unequal to
`STATUS_END` and then raises `AttributeError` at `data.get(...)`. -/
def send_loop : List OutLine → List JVal → LoopOut
  | [], _ => .fail "Unexpected EOF while reading response"
  | .undecodable raw :: _, _ => .fail ("Invalid JSON in response: " ++ raw)
  | .decoded v :: rest, acc =>
      if isStatus v "end" then .done acc
      else
        match v with
        | .obj m =>
            match jlookup m STATUS_KEY with
            | some (.str s) =>
                if s = "update" then
                  -- an update line is printed if it carries a message and is
                  -- never appended to the results
                  send_loop rest acc
                else send_loop rest (acc ++ [v])
            | _ => send_loop rest (acc ++ [v])
        | _ => .exc (.attributeError "get")

/-- `send_cmd` from `src/py/src/clippy/backends/monolith/__init__.py`.
Returns the `(response dict, error string)` pair, or an uncaught
exception.  The serialized request is written to the backend's input
stream, which has no further observable effect on the exchange. -/
def send_cmd (cmd : String × String) (args : List (String × JVal)) (io : ExchTrace) :
    Except PyErr (List (String × JVal) × String) :=
  let _send_j := send_d cmd args
  if io.firstStderrReady then .ok ([], io.stderrLine)
  else if !io.firstStdoutReady then .ok ([], "Timeout waiting for response")
  else
    match io.stdoutLines with
    | [] =>
        -- readline at end-of-file yields "", which json.loads rejects
        .ok ([], "Invalid JSON for STATUS_START: ")
    | .undecodable raw :: _ => .ok ([], "Invalid JSON for STATUS_START: " ++ raw)
    | .decoded v :: rest =>
        if !isStatus v "start" then
          .ok ([], "Expected STATUS_START, got: " ++ pyRepr v)
        else
          match send_loop rest [] with
          | .fail msg => .ok ([], msg)
          | .exc e => .error e
          | .done results =>
              -- recv_d = {RESULTS_KEY: results}, then the non-blocking
              -- stderr drain may override the successful return
              if io.finalStderrReady then .ok ([], io.finalStderrLine)
              else .ok ([(RESULTS_KEY, .arr results)], "")

/-- A result line of an exchange: a decoded dictionary that is neither the
terminal status nor classified as an update. -/
def isResultObj (v : JVal) : Bool :=
  match v with
  | .obj m =>
      !(isStatus v "end") &&
        (match jlookup m STATUS_KEY with
         | some (.str s) => s ≠ "update"
         | _ => true)
  | _ => false

/-- A decoded line classified as UPDATE by the loop. -/
def isUpdateObj (v : JVal) : Bool :=
  match v with
  | .obj m =>
      !(isStatus v "end") &&
        (match jlookup m STATUS_KEY with
         | some (.str s) => s = "update"
         | _ => false)
  | _ => false

/-! ## The fs backend: `_stream_exec`, `_validate`, `_run`
(`src/src/clippy/backends/fs/execution.py`) -/

/-- One event observed by the `select` loop of `_stream_exec`: a line read
from the process's output stream or a line read from its error stream.
The list of events records the serialized order in which lines were
actually read; the loop ends when both streams are exhausted or the
process has terminated. -/
inductive StreamEvent where
  | out (line : OutLine)
  | err (s : String)

/-- `e` is an output-stream line that `json.loads` rejects. -/
def isBadOut : StreamEvent → Bool
  | .out (.undecodable _) => true
  | _ => false

/-- The read loop of `_stream_exec`: each decoded output line overwrites
`d`; each error line is appended verbatim to `stderr_lines` (and mirrored
to local diagnostic output immediately); an undecodable output line makes
`json.loads` raise.  Progress lines only drive the optional progress bar
and printing, which have no further effect on the returned values. -/
def stream_loop : List StreamEvent → JVal → List String → Except PyErr (JVal × List String)
  | [], d, errs => .ok (d, errs)
  | .out (.undecodable raw) :: _, _, _ => .error (.jsonDecodeError raw)
  | .out (.decoded v) :: rest, _, errs => stream_loop rest v errs
  | .err s :: rest, d, errs => stream_loop rest d (errs ++ [s])

/-- `"".join(stderr_lines) if stderr_lines else None`. -/
def joinedStderr (errs : List String) : Option String :=
  if errs.isEmpty then none else some (String.join errs)

/-- `_stream_exec` from `src/src/clippy/backends/fs/execution.py`, with the
observed stream events and the process's exit code as inputs.  The command
line and submission dictionary are serialized and written to the process
and do not influence the controller-side result. -/
def _stream_exec (cmd : List String) (submission_dict : List (String × JVal))
    (events : List StreamEvent) (returncode : Int) (validate : Bool) :
    Except PyErr (Option JVal × Option String × Int) :=
  let _cmd_stdin := JVal.obj submission_dict
  let _ := cmd
  match stream_loop events (.obj []) [] with
  | .error e => .error e
  | .ok (d, stderr_lines) =>
      let stderr := joinedStderr stderr_lines
      if returncode ≠ 0 then
        .error (if validate then .clippyValidationError stderr else .clippyBackendError stderr)
      else if !truthy d then .ok (none, stderr, returncode)
      else .ok (some d, stderr, returncode)

/-- Python `str.split()` with no arguments: split on whitespace runs,
discarding empty pieces. -/
def splitWs (s : String) : List String :=
  (s.split (fun c => c = ' ' ∨ c = '\t' ∨ c = '\n')).filter (fun p => p ≠ "")

/-- `_validate` from `src/src/clippy/backends/fs/execution.py`: prepends the
configured validation prefix, appends the dry-run flag and runs
`_stream_exec` with `validate=True`; returns `(retcode == 0, stderr or "")`
when no exception is raised. -/
def _validate (validateCmdPrefix : String) (dryRunFlag : String) (cmd : List String)
    (dct : List (String × JVal)) (events : List StreamEvent) (returncode : Int) :
    Except PyErr (Bool × String) :=
  let execcmd := splitWs validateCmdPrefix ++ cmd ++ [dryRunFlag]
  match _stream_exec execcmd dct events returncode true with
  | .error e => .error e
  | .ok (_, stderr, retcode) => .ok (retcode = 0, stderr.getD "")

/-- `_run` from `src/src/clippy/backends/fs/execution.py`: prepends the
configured execution prefix and runs `_stream_exec` with `validate=False`;
returns `output or {}` when no exception is raised.  (The warning branch
for a non-zero `retcode` is unreachable, since `_stream_exec` raises on
every non-zero exit code.) -/
def _run (cmdPrefix : String) (cmd : List String) (dct : List (String × JVal))
    (events : List StreamEvent) (returncode : Int) :
    Except PyErr (List (String × JVal)) :=
  let execcmd := splitWs cmdPrefix ++ cmd
  match _stream_exec execcmd dct events returncode false with
  | .error e => .error e
  | .ok (output, _, _) =>
      match output with
      | some (.obj m) => if m.isEmpty then .ok [] else .ok m
      | some v => .ok (if truthy v then [("", v)] else [])
      | none => .ok []

/-! ## Discovery handshake (`classes` in the monolith backend) -/

/-- The observable behaviour of a freshly spawned backend during the
handshake of `classes`: the outcome of the `select` call with
`READY_TIMEOUT` (error stream checked first), the line the error stream
would deliver, and the lines readable on the output stream. -/
structure HsTrace where
  stderrReady : Bool
  stderrLine : String
  stdoutReady : Bool
  stdoutLines : List OutLine

/-- The handshake portion of `classes` from
`src/py/src/clippy/backends/monolith/__init__.py`: waits up to
`READY_TIMEOUT` for the first line, requires it to decode to exactly
`{"_status": "ready"}`, and raises `ClippyConfigurationError` otherwise.
(The `ClippyConfigurationError` raised for an unexpected status inside the
`try` block is not caught by the `except json.JSONDecodeError` clause.) -/
def handshake (monolith_exe : String) (io : HsTrace) : Except PyErr Unit :=
  if io.stderrReady then
    .error (.clippyConfigurationError ("Error starting monolith: " ++ io.stderrLine))
  else if !io.stdoutReady then
    .error (.clippyConfigurationError
      (monolith_exe ++ " did not send ready status within 5.0 seconds"))
  else
    match io.stdoutLines with
    | [] =>
        -- readline at end-of-file yields "", which json.loads rejects
        .error (.clippyConfigurationError ("Invalid JSON from " ++ monolith_exe ++ ": "))
    | .undecodable raw :: _ =>
        .error (.clippyConfigurationError ("Invalid JSON from " ++ monolith_exe ++ ": " ++ raw))
    | .decoded v :: _ =>
        if isStatus v "ready" then .ok ()
        else .error (.clippyConfigurationError ("Expected STATUS_READY, got: " ++ pyRepr v))

/-! ## Method installation (`_create_class` in the monolith backend) -/

/-- Python `method.startswith("__")`, written over the character list. -/
def startsWithUnderscores (s : String) : Bool :=
  match s.data with
  | '_' :: '_' :: _ => true
  | _ => false

/-- The method-installation loop of `_create_class` from
`src/py/src/clippy/backends/monolith/__init__.py`, with the class's
existing attribute names as input and `methods` iterated as
`(name, metadata)` pairs.  Both branches of the loop body evaluate the
name `executable`, which is bound nowhere in `_create_class` or its
enclosing scopes, so every iteration raises `NameError`:
* on a collision (`hasattr(cls, method) and not method.startswith("__")`)
  the `logger.warning` f-string reads `executable`;
* otherwise the call `_define_method(cls, method, executable, docstring,
  args)` reads `executable` as an argument expression (and would in any
  case pass five arguments to the four-parameter `_define_method`). -/
def addMethods (existing : List String) : List (String × JVal) → Except PyErr (List String)
  | [] => .ok existing
  | (method, _meta) :: _rest =>
      if existing.contains method && !(startsWithUnderscores method) then
        if existing.contains "logger" then .error (.nameError "executable")
        else .error .assertionError
      else .error (.nameError "executable")

/-! ## By-reference updates in the generated method `m`
(`_define_method` in the monolith backend) -/

/-- Modelled from the spec: the reserved "by-reference" response key named
by `constants.REFERENCE_KEY`, whose defining module is outside `src/`; the
spec's scenario uses the key `"refs"`. -/
def REFERENCE_KEY : String := "refs"

/-- A Python object bound to a keyword argument of a generated method call.
`pdict` and `plist` are the two container kinds the by-reference protocol
supports; `pother` stands for a value of any other type, recording whether
its type provides a `clear()` method (for example a set does, an int does
not) and its current contents. -/
inductive PyObj where
  | pdict (entries : List (String × JVal))
  | plist (elems : List JVal)
  | pother (hasClear : Bool) (elems : List JVal)

/-- The mutable store of caller-side argument objects: keyword arguments
are references (addresses) into this heap, so mutating the object at an
address is visible to the caller without rebinding anything. -/
def Heap : Type := Nat → PyObj

/-- Pointwise heap update. -/
def heapSet (h : Heap) (a : Nat) (o : PyObj) : Heap :=
  fun x => if x = a then o else h x

/-- Python `kwval.update(v)` on a dict.  The protocol delivers JSON objects
here; `dict.update` with a non-mapping argument (which Python would accept
only for iterables of key/value pairs) is modelled as `TypeError`. -/
def dictUpdateVal (base : List (String × JVal)) : JVal → Except PyErr (List (String × JVal))
  | .obj m => .ok (dictUpdate base m)
  | _ => .error .typeError

/-- Python `kwval += v` on a list: extends in place with the elements of an
iterable — the elements of a decoded array, the one-character strings of a
string, or the keys of a decoded object — and raises `TypeError` for a
non-iterable value. -/
def listExtend (base : List JVal) : JVal → Except PyErr (List JVal)
  | .arr xs => .ok (base ++ xs)
  | .str s => .ok (base ++ s.toList.map (fun c => .str (String.singleton c)))
  | .obj m => .ok (base ++ m.map (fun e => .str e.1))
  | _ => .error .typeError

/-- One iteration of the by-reference loop of the generated method `m`, for
a keyword argument named `kw` (already known to be in the response's
by-reference key set) currently bound to the object `o`:
`kwval.clear()` runs first, then the `isinstance` dispatch reads
`outj[kw]` and mutates the cleared container.  Returns the object's new
state together with the exception, if any, that aborts the call. -/
def refStep (outj : List (String × JVal)) (kw : String) (o : PyObj) : PyObj × Option PyErr :=
  match o with
  | .pother false xs => (.pother false xs, some (.attributeError "clear"))
  | .pother true _ => (.pother true [], some .clippyTypeError)
  | .pdict _ =>
      match jlookup outj kw with
      | none => (.pdict [], some (.keyError kw))
      | some v =>
          match dictUpdateVal [] v with
          | .ok m => (.pdict m, none)
          | .error e => (.pdict [], some e)
  | .plist _ =>
      match jlookup outj kw with
      | none => (.plist [], some (.keyError kw))
      | some v =>
          match listExtend [] v with
          | .ok xs => (.plist xs, none)
          | .error e => (.plist [], some e)

/-- Python `kw in outj.get(REFERENCE_KEY, {})`: key membership when the
by-reference set is a decoded object, element membership for a decoded
array, substring containment for a string, and `TypeError` otherwise. -/
def inRefs (outj : List (String × JVal)) (kw : String) : Except PyErr Bool :=
  match jlookup outj REFERENCE_KEY with
  | none => .ok false
  | some (.obj refs) => .ok (hasKey refs kw)
  | some (.arr xs) => .ok (xs.any (fun v => match v with | .str s => s = kw | _ => false))
  | some (.str s) => .ok (kw = "" || (s.splitOn kw).length > 1)
  | some _ => .error .typeError

/-- The by-reference loop of the generated method `m`
(`src/py/src/clippy/backends/monolith/__init__.py`): iterates the call's
keyword arguments in order and applies `refStep` to each one named in the
response's by-reference key set.  Returns the final heap — mutations made
before an exception persist — and the exception, if any. -/
def refLoop (outj : List (String × JVal)) : List (String × Nat) → Heap → Heap × Option PyErr
  | [], h => (h, none)
  | (kw, a) :: rest, h =>
      match inRefs outj kw with
      | .error e => (h, some e)
      | .ok false => refLoop outj rest h
      | .ok true =>
          let (o, err) := refStep outj kw (h a)
          let h2 := heapSet h a o
          match err with
          | some e => (h2, some e)
          | none => refLoop outj rest h2

/-! ## Selector updates in the generated method `m` -/

/-- A selector-tree node: an optional docstring, an optional payload value
and named children.  Mirrors the spec's SelectorNode; the `Selector` class
itself is outside `src/`. -/
inductive Selector where
  | mk (desc : String) (value : Option JVal) (children : List (String × Selector))

def Selector.desc : Selector → String
  | .mk d _ _ => d

def Selector.value : Selector → Option JVal
  | .mk _ v _ => v

def Selector.children : Selector → List (String × Selector)
  | .mk _ _ c => c

/-- Look up a direct child by name. -/
def Selector.child (s : Selector) (k : String) : Option Selector :=
  match s.children.find? (fun e => e.1 = k) with
  | some e => some e.2
  | none => none

/-- Replace the named child if present (keeping its position), else append
it. -/
def childSet : List (String × Selector) → String → Selector → List (String × Selector)
  | [], k, c => [(k, c)]
  | (k', c') :: rest, k, c =>
      if k' = k then (k, c) :: rest else (k', c') :: childSet rest k c

def Selector.withChild (s : Selector) (k : String) (c : Selector) : Selector :=
  .mk s.desc s.value (childSet s.children k c)

/-- The named child, or a fresh empty node if absent. -/
def Selector.childOrNew (s : Selector) (k : String) : Selector :=
  (s.child k).getD (.mk "" none [])

/-- Modelled from the spec: the import of one dotted selector path into a
tree (`flat_dict_to_nested` in `utils` composed with
`Selector._import_from_dict` in `selectors`, both outside `src/`): walks
the path, creating intermediate nodes as needed, and overwrites the value
at the leaf. -/
def selImportPath : Selector → List String → JVal → Selector
  | s, [], v => .mk s.desc (some v) s.children
  | s, k :: rest, v => s.withChild k (selImportPath (s.childOrNew k) rest v)

/-- The payload value reached by walking a path of child names. -/
def Selector.valueAt : Selector → List String → Option JVal
  | s, [] => s.value
  | s, k :: rest =>
      match s.child k with
      | some c => c.valueAt rest
      | none => none

/-- Splitting a character list at every occurrence of the separator
character; the result is never empty. -/
def splitCharList (c : Char) : List Char → List String
  | [] => [""]
  | ch :: rest =>
      match splitCharList c rest with
      | [] => [""]
      | p :: ps =>
          if ch = c then "" :: p :: ps else (String.singleton ch ++ p) :: ps

/-- Python `key.split(".")` on a dotted selector path. -/
def splitDot (s : String) : List String :=
  splitCharList '.' s.data

/-- The selector-update step of the generated method `m`
(`src/py/src/clippy/backends/monolith/__init__.py`, composed with the
spec-modelled flattening and import): each dotted key of the response's
selector mapping is split on `"."`; its top-level component must name a
selector already exposed by the caller — otherwise
`ClippyInvalidSelectorError` is raised — and the remaining path is merged
into that selector's tree. -/
def applySelectors (attrs : List (String × Selector)) :
    List (String × JVal) → Except PyErr (List (String × Selector))
  | [] => .ok attrs
  | (dotted, v) :: rest =>
      match splitDot dotted with
      | [] => .error (.clippyInvalidSelectorError "empty selector path")
      | top :: path =>
          match attrs.find? (fun e => e.1 = top) with
          | none =>
              .error (.clippyInvalidSelectorError
                ("selector " ++ top ++ " not found in class; aborting"))
          | some e =>
              applySelectors (childSet attrs top (selImportPath e.2 path v)) rest

/-! ## Status dictionaries as decoded values -/

def STATUS_READY : JVal := .obj [(STATUS_KEY, .str "ready")]

def STATUS_START : JVal := .obj [(STATUS_KEY, .str "start")]

def STATUS_END : JVal := .obj [(STATUS_KEY, .str "end")]

/-! ## Dictionary lemmas -/

lemma jlookup_setKey_self (m : List (String × JVal)) (k : String) (v : JVal) :
    jlookup (setKey m k v) k = some v := by
  induction m with
  | nil => simp [setKey, jlookup]
  | cons hd tl ih =>
      obtain ⟨k', v'⟩ := hd
      by_cases hk : k' = k
      · simp [setKey, hk, jlookup]
      · simp [setKey, hk, jlookup, ih]

lemma jlookup_setKey_ne (m : List (String × JVal)) (k k' : String) (v : JVal)
    (h : k' ≠ k) : jlookup (setKey m k' v) k = jlookup m k := by
  induction m with
  | nil => simp [setKey, jlookup, h]
  | cons hd tl ih =>
      obtain ⟨k0, v0⟩ := hd
      by_cases hk : k0 = k'
      · simp [setKey, hk, jlookup, h]
      · simp only [setKey, hk, if_neg]
        by_cases hk2 : k0 = k
        · simp [jlookup, hk2]
        · simp [jlookup, hk2, ih]

lemma jlookup_eq_none_of_not_mem (m : List (String × JVal)) (k : String)
    (h : k ∉ m.map Prod.fst) : jlookup m k = none := by
  induction m with
  | nil => rfl
  | cons hd tl ih =>
      simp only [List.map_cons, List.mem_cons, not_or] at h
      obtain ⟨h1, h2⟩ := h
      obtain ⟨k0, v0⟩ := hd
      simp only [jlookup]
      rw [if_neg (fun hh => h1 hh.symm)]
      exact ih h2

lemma jlookup_dictUpdate (base args : List (String × JVal)) (k : String)
    (h : (args.map Prod.fst).Nodup) :
    jlookup (dictUpdate base args) k =
      if hasKey args k then jlookup args k else jlookup base k := by
  induction args generalizing base with
  | nil => simp [dictUpdate, hasKey, jlookup]
  | cons hd tl ih =>
      obtain ⟨k0, v0⟩ := hd
      simp only [List.map_cons, List.nodup_cons] at h
      have step : dictUpdate base ((k0, v0) :: tl) = dictUpdate (setKey base k0 v0) tl := rfl
      rw [step, ih _ h.2]
      by_cases hk : k0 = k
      · subst hk
        have hnone : jlookup tl k0 = none := jlookup_eq_none_of_not_mem _ _ h.1
        simp [hasKey, jlookup, hnone, jlookup_setKey_self]
      · simp [hasKey, jlookup, hk, jlookup_setKey_ne _ _ _ _ hk]

/-! ## C5 -/

/-- C5 (counterexample): `send_d = {"cmd": cmd[0]}; send_d.update(args)`
lets a caller-supplied argument named `cmd` override the command's
canonical name, contradicting the claim that extra keyword arguments are
merged without overriding the `cmd` key. -/
theorem C5_cmd_override_counterexample :
    send_d ("help", "h") [("cmd", JVal.str "evil")] = [("cmd", JVal.str "evil")] ∧
      jlookup (send_d ("help", "h") [("cmd", JVal.str "evil")]) "cmd" ≠
        some (JVal.str "help") := by
  refine ⟨rfl, ?_⟩
  intro h
  rw [show jlookup (send_d ("help", "h") [("cmd", JVal.str "evil")]) "cmd" =
      some (JVal.str "evil") from rfl] at h
  simp at h

/-- C5 (amended): the payload handed to the wire codec always contains a
`cmd` key; when the caller's argument mapping does not itself bind `cmd`,
that key is bound to the command's canonical name and every caller
argument is carried through unchanged; an argument named `cmd` overrides
the canonical name. -/
theorem C5_payload_cmd_key (cmd : String × String) (args : List (String × JVal))
    (h : (args.map Prod.fst).Nodup) :
    hasKey (send_d cmd args) "cmd" = true ∧
      (hasKey args "cmd" = false →
        jlookup (send_d cmd args) "cmd" = some (.str cmd.1)) ∧
      (hasKey args "cmd" = true →
        jlookup (send_d cmd args) "cmd" = jlookup args "cmd") ∧
      (∀ k, k ≠ "cmd" → jlookup (send_d cmd args) k = jlookup args k) := by
  have hbase : jlookup [("cmd", JVal.str cmd.1)] "cmd" = some (.str cmd.1) := rfl
  have hu := fun k => jlookup_dictUpdate [("cmd", JVal.str cmd.1)] args k h
  refine ⟨?_, ?_, ?_, ?_⟩
  · unfold hasKey send_d
    rw [hu "cmd"]
    by_cases hc : hasKey args "cmd"
    · simp only [hc, if_true]
      unfold hasKey at hc
      exact hc
    · simp [hc, hbase]
  · intro hc
    unfold send_d
    rw [hu "cmd", hc]
    simp [hbase]
  · intro hc
    unfold send_d
    rw [hu "cmd", hc]
    simp
  · intro k hk
    unfold send_d
    rw [hu k]
    by_cases hc : hasKey args k
    · simp [hc]
    · have hnone : jlookup args k = none := by
        unfold hasKey at hc
        cases hjk : jlookup args k with
        | none => rfl
        | some v => rw [hjk] at hc; simp at hc
      simp only [hc, Bool.false_eq_true, if_false, hnone, jlookup]
      rw [if_neg (fun hh => hk hh.symm)]

/-- C5 witness: the amended statement evaluated at an argument mapping
without a `cmd` key and at one that binds `cmd` itself. -/
theorem C5_payload_cmd_key_witness :
    jlookup (send_d ("help", "h") [("x", JVal.num 1)]) "cmd" = some (.str "help") ∧
      jlookup (send_d ("help", "h") [("cmd", JVal.str "evil")]) "cmd" =
        jlookup [("cmd", JVal.str "evil")] "cmd" := by
  constructor
  · exact (C5_payload_cmd_key ("help", "h") [("x", JVal.num 1)] (by simp)).2.1 rfl
  · exact (C5_payload_cmd_key ("help", "h") [("cmd", JVal.str "evil")] (by simp)).2.2.1 rfl

/-! ## C8 -/

/-- C8 (code bug): the method-installation loop of `_create_class` never
installs anything — with a method whose name collides with the existing
`logger` attribute (and equally with a fresh method name), the loop body
evaluates the unbound name `executable` and raises `NameError`, so class
creation fails instead of logging a warning and installing the method. -/
theorem C8_create_class_name_error :
    addMethods ["_name", "_cfg", "_p", "logger"] [("logger", .obj [])] =
        .error (.nameError "executable") ∧
      addMethods ["_name", "_cfg", "_p", "logger"] [("fresh_method", .obj [])] =
        .error (.nameError "executable") :=
  ⟨rfl, rfl⟩

/-! ## C1 -/

lemma send_loop_cons_result (v : JVal) (rest : List OutLine) (acc : List JVal)
    (hres : isResultObj v = true) :
    send_loop (.decoded v :: rest) acc = send_loop rest (acc ++ [v]) := by
  cases v with
  | obj m =>
      simp only [isResultObj, Bool.and_eq_true, Bool.not_eq_true'] at hres
      obtain ⟨hend, hcls⟩ := hres
      simp only [send_loop, hend, Bool.false_eq_true, if_false]
      cases hj : jlookup m STATUS_KEY with
      | none => rfl
      | some w =>
          rw [hj] at hcls
          cases w with
          | str s =>
              have hs : s ≠ "update" := by
                intro hh
                rw [hh] at hcls
                simp at hcls
              simp [hs]
          | null => rfl
          | bool b => rfl
          | num n => rfl
          | arr xs => rfl
          | obj mm => rfl
  | null => simp [isResultObj] at hres
  | bool b => simp [isResultObj] at hres
  | num n => simp [isResultObj] at hres
  | str s => simp [isResultObj] at hres
  | arr xs => simp [isResultObj] at hres

lemma send_loop_cons_update (v : JVal) (rest : List OutLine) (acc : List JVal)
    (hupd : isUpdateObj v = true) :
    send_loop (.decoded v :: rest) acc = send_loop rest acc := by
  cases v with
  | obj m =>
      simp only [isUpdateObj, Bool.and_eq_true, Bool.not_eq_true'] at hupd
      obtain ⟨hend, hcls⟩ := hupd
      simp only [send_loop, hend, Bool.false_eq_true, if_false]
      cases hj : jlookup m STATUS_KEY with
      | none => rw [hj] at hcls; simp at hcls
      | some w =>
          rw [hj] at hcls
          cases w with
          | str s =>
              have hs : s = "update" := by
                by_contra hh
                simp [hh] at hcls
              simp [hs]
          | null => simp at hcls
          | bool b => simp at hcls
          | num n => simp at hcls
          | arr xs => simp at hcls
          | obj mm => simp at hcls
  | null => simp [isUpdateObj] at hupd
  | bool b => simp [isUpdateObj] at hupd
  | num n => simp [isUpdateObj] at hupd
  | str s => simp [isUpdateObj] at hupd
  | arr xs => simp [isUpdateObj] at hupd

lemma isResultObj_eq_false_of_update (v : JVal) (h : isUpdateObj v = true) :
    isResultObj v = false := by
  cases v with
  | obj m =>
      simp only [isUpdateObj, Bool.and_eq_true, Bool.not_eq_true'] at h
      obtain ⟨hend, hcls⟩ := h
      simp only [isResultObj, hend, Bool.not_false, Bool.true_and]
      cases hj : jlookup m STATUS_KEY with
      | none => rw [hj] at hcls; simp at hcls
      | some w =>
          rw [hj] at hcls
          cases w with
          | str s =>
              have hs : s = "update" := by
                by_contra hh
                simp [hh] at hcls
              simp [hs]
          | null => simp at hcls
          | bool b => simp at hcls
          | num n => simp at hcls
          | arr xs => simp at hcls
          | obj mm => simp at hcls
  | null => simp [isUpdateObj] at h
  | bool b => simp [isUpdateObj] at h
  | num n => simp [isUpdateObj] at h
  | str s => simp [isUpdateObj] at h
  | arr xs => simp [isUpdateObj] at h

lemma send_loop_classified (mid : List JVal) (acc : List JVal)
    (h : mid.all (fun v => isResultObj v || isUpdateObj v) = true) :
    send_loop (mid.map .decoded ++ [.decoded STATUS_END]) acc =
      .done (acc ++ mid.filter (fun v => isResultObj v)) := by
  induction mid generalizing acc with
  | nil =>
      simp only [List.map_nil, List.nil_append, List.filter_nil, List.append_nil]
      rfl
  | cons v rest ih =>
      simp only [List.all_cons, Bool.and_eq_true] at h
      obtain ⟨hv, hrest⟩ := h
      simp only [List.map_cons, List.cons_append]
      rcases (Bool.or_eq_true _ _).mp hv with h1 | h1
      · rw [send_loop_cons_result v _ acc h1, ih _ hrest]
        have hfil : (v :: rest).filter (fun x => isResultObj x) =
            v :: rest.filter (fun x => isResultObj x) := by
          simp [List.filter_cons, h1]
        rw [hfil]
        simp [List.append_assoc]
      · have h2 : isResultObj v = false := isResultObj_eq_false_of_update v h1
        rw [send_loop_cons_update v _ acc h1, ih _ hrest]
        have hfil : (v :: rest).filter (fun x => isResultObj x) =
            rest.filter (fun x => isResultObj x) := by
          simp [List.filter_cons, h2]
        rw [hfil]

/-- C1 (confirmed): an exchange whose output stream delivers START, then
lines each classified as RESULT or UPDATE of which exactly `r1` then `r2`
are RESULT objects, then END, returns a response whose result list is
exactly `[r1, r2]` in arrival order — UPDATE-classified lines are never
appended. -/
theorem C1_exchange_result_list (cmd : String × String) (args : List (String × JVal))
    (io : ExchTrace) (mid : List JVal) (r1 r2 : JVal)
    (h1 : io.firstStderrReady = false) (h2 : io.firstStdoutReady = true)
    (h3 : io.stdoutLines =
      .decoded STATUS_START :: (mid.map .decoded ++ [.decoded STATUS_END]))
    (h4 : mid.all (fun v => isResultObj v || isUpdateObj v) = true)
    (h5 : mid.filter (fun v => isResultObj v) = [r1, r2])
    (h6 : io.finalStderrReady = false) :
    send_cmd cmd args io = .ok ([(RESULTS_KEY, .arr [r1, r2])], "") := by
  unfold send_cmd
  rw [h1, h2, h3]
  simp only [Bool.false_eq_true, if_false, Bool.not_true]
  rw [show isStatus STATUS_START "start" = true from rfl]
  simp only [Bool.not_true, Bool.false_eq_true, if_false]
  rw [send_loop_classified mid [] h4]
  simp only [List.nil_append, h5, h6, Bool.false_eq_true, if_false]

/-- C1 witness: a concrete exchange delivering START, a result, an UPDATE
line, another result, then END. -/
theorem C1_exchange_result_list_witness :
    send_cmd ("q", "r") []
      { firstStderrReady := false, stderrLine := "",
        firstStdoutReady := true,
        stdoutLines := [.decoded STATUS_START,
          .decoded (.obj [("a", .num 1)]),
          .decoded (.obj [(STATUS_KEY, .str "update"), ("message", .str "hi")]),
          .decoded (.obj [("b", .num 2)]),
          .decoded STATUS_END],
        finalStderrReady := false, finalStderrLine := "" } =
      .ok ([(RESULTS_KEY, .arr [.obj [("a", .num 1)], .obj [("b", .num 2)]])], "") :=
  C1_exchange_result_list ("q", "r") [] _
    [.obj [("a", .num 1)],
     .obj [(STATUS_KEY, .str "update"), ("message", .str "hi")],
     .obj [("b", .num 2)]]
    (.obj [("a", .num 1)]) (.obj [("b", .num 2)]) rfl rfl rfl rfl rfl rfl

/-! ## C6 -/

/-- C6 (confirmed): when neither stream is readable before the timeout the
exchange returns no payload and the timeout message; when the first output
line is missing or undecodable it returns no payload and the
invalid-JSON protocol message; and the two messages are distinguishable
from each other. -/
theorem C6_timeout_protocol_failure (cmd : String × String)
    (args : List (String × JVal)) (io : ExchTrace)
    (herr : io.firstStderrReady = false) :
    (io.firstStdoutReady = false →
      send_cmd cmd args io = .ok ([], "Timeout waiting for response")) ∧
    (∀ raw rest, io.firstStdoutReady = true →
      io.stdoutLines = .undecodable raw :: rest →
      send_cmd cmd args io = .ok ([], "Invalid JSON for STATUS_START: " ++ raw)) ∧
    (io.firstStdoutReady = true → io.stdoutLines = [] →
      send_cmd cmd args io = .ok ([], "Invalid JSON for STATUS_START: ")) ∧
    (∀ raw, "Invalid JSON for STATUS_START: " ++ raw ≠ "Timeout waiting for response") := by
  refine ⟨?_, ?_, ?_, ?_⟩
  · intro hout
    unfold send_cmd
    rw [herr, hout]
    rfl
  · intro raw rest hout hlines
    unfold send_cmd
    rw [herr, hout, hlines]
    rfl
  · intro hout hlines
    unfold send_cmd
    rw [herr, hout, hlines]
    rfl
  · intro raw h
    have hl := congrArg String.length h
    rw [String.length_append] at hl
    have h1 : ("Invalid JSON for STATUS_START: ").length = 31 := rfl
    have h2 : ("Timeout waiting for response").length = 28 := rfl
    rw [h1, h2] at hl
    omega

/-- C6 witness: a concrete timed-out exchange and a concrete exchange whose
first output line is undecodable. -/
theorem C6_timeout_protocol_failure_witness :
    send_cmd ("q", "r") []
      { firstStderrReady := false, stderrLine := "", firstStdoutReady := false,
        stdoutLines := [], finalStderrReady := false, finalStderrLine := "" } =
      .ok ([], "Timeout waiting for response") ∧
    send_cmd ("q", "r") []
      { firstStderrReady := false, stderrLine := "", firstStdoutReady := true,
        stdoutLines := [.undecodable "garbage"], finalStderrReady := false,
        finalStderrLine := "" } =
      .ok ([], "Invalid JSON for STATUS_START: garbage") := by
  constructor
  · exact (C6_timeout_protocol_failure ("q", "r") [] _ rfl).1 rfl
  · exact (C6_timeout_protocol_failure ("q", "r") [] _ rfl).2.1 "garbage" [] rfl rfl

/-! ## C9 -/

/-- C9 (confirmed): after a read loop that completed successfully, the
error stream is drained once more without blocking; when that drain is
readable and yields a non-empty line, the line overrides the otherwise
empty error result and the exchange reports it to the caller (dropping the
payload), whereas without the drain the same exchange would have returned
the payload with an empty error. -/
theorem C9_stderr_drain_override (cmd : String × String) (args : List (String × JVal))
    (io : ExchTrace) (rest : List OutLine) (results : List JVal)
    (h1 : io.firstStderrReady = false) (h2 : io.firstStdoutReady = true)
    (h3 : io.stdoutLines = .decoded STATUS_START :: rest)
    (h4 : send_loop rest [] = .done results)
    (h5 : io.finalStderrReady = true) (_h6 : io.finalStderrLine ≠ "") :
    send_cmd cmd args io = .ok ([], io.finalStderrLine) ∧
      send_cmd cmd args { io with finalStderrReady := false } =
        .ok ([(RESULTS_KEY, .arr results)], "") := by
  constructor
  · unfold send_cmd
    rw [h1, h2, h3]
    simp only [Bool.false_eq_true, if_false, Bool.not_true]
    rw [show isStatus STATUS_START "start" = true from rfl]
    simp only [Bool.not_true, Bool.false_eq_true, if_false, h4, h5, if_true]
  · unfold send_cmd
    simp only [h1, h2, h3]
    simp only [Bool.false_eq_true, if_false, Bool.not_true]
    rw [show isStatus STATUS_START "start" = true from rfl]
    simp only [Bool.not_true, Bool.false_eq_true, if_false, h4]

/-- C9 witness: a successful exchange whose final stderr drain delivers a
late error line. -/
theorem C9_stderr_drain_override_witness :
    send_cmd ("q", "r") []
      { firstStderrReady := false, stderrLine := "", firstStdoutReady := true,
        stdoutLines := [.decoded STATUS_START, .decoded (.obj [("r", .num 7)]),
          .decoded STATUS_END],
        finalStderrReady := true, finalStderrLine := "late error\n" } =
      .ok ([], "late error\n") :=
  (C9_stderr_drain_override ("q", "r") [] _
    [.decoded (.obj [("r", .num 7)]), .decoded STATUS_END]
    [.obj [("r", .num 7)]] rfl rfl rfl rfl rfl (by simp)).1

/-! ## C2 -/

/-- The error-stream lines of a trace, in arrival order. -/
def errLines : List StreamEvent → List String
  | [] => []
  | .err s :: rest => s :: errLines rest
  | .out _ :: rest => errLines rest

/-- The last decoded output line of a trace (the final value of `d`). -/
def finalOut : List StreamEvent → JVal → JVal
  | [], d => d
  | .out (.decoded v) :: rest, _ => finalOut rest v
  | .out (.undecodable _) :: rest, d => finalOut rest d
  | .err _ :: rest, d => finalOut rest d

lemma stream_loop_ok (events : List StreamEvent) (d : JVal) (errs : List String)
    (h : events.all (fun e => !isBadOut e) = true) :
    stream_loop events d errs = .ok (finalOut events d, errs ++ errLines events) := by
  induction events generalizing d errs with
  | nil => simp [stream_loop, finalOut, errLines]
  | cons e rest ih =>
      simp only [List.all_cons, Bool.and_eq_true] at h
      obtain ⟨he, hrest⟩ := h
      cases e with
      | out line =>
          cases line with
          | undecodable raw => simp [isBadOut] at he
          | decoded v => simp [stream_loop, finalOut, errLines, ih _ _ hrest]
      | err s => simp [stream_loop, finalOut, errLines, ih _ _ hrest]

/-- C2 (confirmed): an exchange whose process exits with a non-zero code
raises `ClippyBackendError` in run mode and `ClippyValidationError` in
validate mode, both carrying the accumulated stderr text verbatim — the
error lines joined in arrival order (`None` when no stderr arrived).
Assumes every output line decodes; an undecodable line would instead raise
the wire codec's decode error before the exit code is examined. -/
theorem C2_nonzero_exit_errors (cmdPrefix validateCmdPrefix dryRunFlag : String)
    (cmd : List String) (dct : List (String × JVal)) (events : List StreamEvent)
    (rc : Int) (hgood : events.all (fun e => !isBadOut e) = true) (hrc : rc ≠ 0) :
    _run cmdPrefix cmd dct events rc =
        .error (.clippyBackendError (joinedStderr (errLines events))) ∧
      _validate validateCmdPrefix dryRunFlag cmd dct events rc =
        .error (.clippyValidationError (joinedStderr (errLines events))) := by
  have hstream := stream_loop_ok events (.obj []) [] hgood
  rw [List.nil_append] at hstream
  constructor
  · unfold _run _stream_exec
    rw [hstream]
    simp [hrc]
  · unfold _validate _stream_exec
    rw [hstream]
    simp [hrc]

/-- C2 witness: a process writing one stderr line and exiting with code 1. -/
theorem C2_nonzero_exit_errors_witness :
    _run "" ["backend"] [] [.err "boom\n"] 1 =
        .error (.clippyBackendError (some "boom\n")) ∧
      _validate "" "--dry-run" ["backend"] [] [.err "boom\n"] 1 =
        .error (.clippyValidationError (some "boom\n")) :=
  C2_nonzero_exit_errors "" "" "--dry-run" ["backend"] [] [.err "boom\n"] 1 rfl
    (by decide)

/-! ## C7 -/

/-- C7 (confirmed): discovery accepts a backend exactly when the error
stream stayed quiet, the output stream became readable within the
handshake timeout, and the very first line decodes to exactly
`{"_status": "ready"}`; every other outcome — a different status value, an
undecodable line (or end-of-file), no readable output in time, or an error
line — raises `ClippyConfigurationError`; and the handshake timeout is
distinct from the per-exchange timeout. -/
theorem C7_handshake_accepts_only_ready (exe : String) (io : HsTrace) :
    ((handshake exe io = .ok ()) ↔
      (io.stderrReady = false ∧ io.stdoutReady = true ∧
        ∃ v rest, io.stdoutLines = .decoded v :: rest ∧ isStatus v "ready" = true)) ∧
    (∀ e, handshake exe io = .error e →
      ∃ msg, e = .clippyConfigurationError msg) ∧
    READY_TIMEOUT ≠ SELECT_TIMEOUT := by
  obtain ⟨se, sl, so, lines⟩ := io
  refine ⟨?_, ?_, by norm_num [READY_TIMEOUT, SELECT_TIMEOUT]⟩
  · cases se with
    | true => simp [handshake]
    | false =>
        cases so with
        | false => simp [handshake]
        | true =>
            cases lines with
            | nil => simp [handshake]
            | cons hd rest =>
                cases hd with
                | undecodable raw => simp [handshake]
                | decoded v =>
                    by_cases hv : isStatus v "ready" = true
                    · constructor
                      · intro _
                        exact ⟨rfl, rfl, v, rest, rfl, hv⟩
                      · intro _
                        simp [handshake, hv]
                    · simp [handshake, hv]
  · intro e he
    cases se with
    | true =>
        rw [show handshake exe ⟨true, sl, so, lines⟩ =
            .error (.clippyConfigurationError ("Error starting monolith: " ++ sl))
          from rfl] at he
        injection he with h
        exact ⟨_, h.symm⟩
    | false =>
        cases so with
        | false =>
            rw [show handshake exe ⟨false, sl, false, lines⟩ =
                .error (.clippyConfigurationError
                  (exe ++ " did not send ready status within 5.0 seconds"))
              from rfl] at he
            injection he with h
            exact ⟨_, h.symm⟩
        | true =>
            cases lines with
            | nil =>
                rw [show handshake exe ⟨false, sl, true, []⟩ =
                    .error (.clippyConfigurationError ("Invalid JSON from " ++ exe ++ ": "))
                  from rfl] at he
                injection he with h
                exact ⟨_, h.symm⟩
            | cons hd rest =>
                cases hd with
                | undecodable raw =>
                    rw [show handshake exe ⟨false, sl, true, .undecodable raw :: rest⟩ =
                        .error (.clippyConfigurationError
                          ("Invalid JSON from " ++ exe ++ ": " ++ raw))
                      from rfl] at he
                    injection he with h
                    exact ⟨_, h.symm⟩
                | decoded v =>
                    by_cases hv : isStatus v "ready" = true
                    · simp [handshake, hv] at he
                    · simp only [handshake, hv, Bool.false_eq_true, if_false,
                        Bool.not_true] at he
                      injection he with h
                      exact ⟨_, h.symm⟩

/-- C7 witness: a backend whose first line is exactly the ready status. -/
theorem C7_handshake_accepts_only_ready_witness :
    handshake "/usr/bin/monolith"
      { stderrReady := false, stderrLine := "", stdoutReady := true,
        stdoutLines := [.decoded STATUS_READY] } = .ok () :=
  ((C7_handshake_accepts_only_ready "/usr/bin/monolith" _).1).mpr
    ⟨rfl, rfl, STATUS_READY, [], rfl, rfl⟩

/-! ## C3 -/

/-- C3 (counterexample): a by-reference update targeting a keyword argument
whose type has no `clear()` method (for example an int) raises
`AttributeError` from the `kwval.clear()` call, not the claimed type
error. -/
theorem C3_byref_counterexample :
    (refLoop [("refs", .obj [("x", .arr [])]), ("x", .arr [])] [("x", 0)]
        (fun _ => PyObj.pother false [])).2 = some (.attributeError "clear") ∧
      PyErr.attributeError "clear" ≠ PyErr.clippyTypeError :=
  ⟨rfl, by decide⟩

/-- C3 (amended): a by-reference update for a keyword argument mutates the
container at the argument's address in place — cleared then extended for a
list, cleared then merged for a dict — without rebinding the caller's
reference (the heap changes only at the argument's own address); a target
of any other type that supports `clear()` is cleared and then
`ClippyTypeError` is raised, while a target without `clear()` raises
`AttributeError`. -/
theorem C3_byref_mutation (outj refs : List (String × JVal)) (kw : String)
    (a : Nat) (h : Heap)
    (href : jlookup outj REFERENCE_KEY = some (.obj refs))
    (hkw : hasKey refs kw = true) :
    (∀ xs ys, h a = .plist xs → jlookup outj kw = some (.arr ys) →
        refLoop outj [(kw, a)] h = (heapSet h a (.plist ys), none)) ∧
    (∀ m mm, h a = .pdict m → jlookup outj kw = some (.obj mm) →
        refLoop outj [(kw, a)] h = (heapSet h a (.pdict (dictUpdate [] mm)), none)) ∧
    (∀ xs, h a = .pother true xs →
        refLoop outj [(kw, a)] h =
          (heapSet h a (.pother true []), some .clippyTypeError)) ∧
    (∀ xs, h a = .pother false xs →
        refLoop outj [(kw, a)] h =
          (heapSet h a (.pother false xs), some (.attributeError "clear"))) := by
  have hin : inRefs outj kw = .ok true := by
    unfold inRefs
    rw [href]
    exact congrArg Except.ok hkw
  refine ⟨?_, ?_, ?_, ?_⟩
  · intro xs ys hha hv
    simp only [refLoop, hin, refStep, hha, hv, listExtend, List.nil_append]
  · intro m mm hha hv
    simp only [refLoop, hin, refStep, hha, hv, dictUpdateVal]
  · intro xs hha
    simp only [refLoop, hin, refStep, hha]
  · intro xs hha
    simp only [refLoop, hin, refStep, hha]

/-- C3 witness: the spec's scenario — a keyword argument bound to the list
`[1, 2]` with a response carrying `{"refs": {"x": [3, 4]}, "x": [3, 4]}`
ends with the object at the argument's address replaced in place by
`[3, 4]`. -/
theorem C3_byref_mutation_witness :
    refLoop [("refs", .obj [("x", .arr [.num 3, .num 4])]), ("x", .arr [.num 3, .num 4])]
        [("x", 0)] (fun _ => PyObj.plist [.num 1, .num 2]) =
      (heapSet (fun _ => PyObj.plist [.num 1, .num 2]) 0 (.plist [.num 3, .num 4]),
        none) :=
  (C3_byref_mutation
      [("refs", .obj [("x", .arr [.num 3, .num 4])]), ("x", .arr [.num 3, .num 4])]
      [("x", .arr [.num 3, .num 4])] "x" 0 (fun _ => PyObj.plist [.num 1, .num 2])
      rfl rfl).1
    [.num 1, .num 2] [.num 3, .num 4] rfl rfl

/-! ## C10 -/

/-- C10 (confirmed): the by-reference loop calls `clear()` before the
`isinstance` checks, so a target that is neither a dict nor a list but has
a `clear()` method is already emptied when `ClippyTypeError` is raised;
and a target whose type has no `clear()` method fails with
`AttributeError` instead of `ClippyTypeError`. -/
theorem C10_clear_before_typecheck (outj refs : List (String × JVal)) (kw : String)
    (a : Nat) (h : Heap) (xs : List JVal)
    (href : jlookup outj REFERENCE_KEY = some (.obj refs))
    (hkw : hasKey refs kw = true) :
    (h a = .pother true xs →
      refLoop outj [(kw, a)] h =
          (heapSet h a (.pother true []), some .clippyTypeError) ∧
        (refLoop outj [(kw, a)] h).1 a = .pother true []) ∧
    (h a = .pother false xs →
      refLoop outj [(kw, a)] h =
        (heapSet h a (.pother false xs), some (.attributeError "clear"))) := by
  have hin : inRefs outj kw = .ok true := by
    unfold inRefs
    rw [href]
    exact congrArg Except.ok hkw
  constructor
  · intro hha
    have heq : refLoop outj [(kw, a)] h =
        (heapSet h a (.pother true []), some .clippyTypeError) := by
      simp only [refLoop, hin, refStep, hha]
    refine ⟨heq, ?_⟩
    rw [heq]
    simp [heapSet]
  · intro hha
    simp only [refLoop, hin, refStep, hha]

/-- C10 witness: a set-like argument (has `clear()`, neither dict nor
list) is emptied and the call raises `ClippyTypeError`; an int-like
argument (no `clear()`) raises `AttributeError`. -/
theorem C10_clear_before_typecheck_witness :
    (refLoop [("refs", .obj [("x", .null)])] [("x", 0)]
        (fun _ => PyObj.pother true [.num 1])).1 0 = .pother true [] ∧
      refLoop [("refs", .obj [("x", .null)])] [("x", 0)]
          (fun _ => PyObj.pother false [.num 1]) =
        (heapSet (fun _ => PyObj.pother false [.num 1]) 0 (.pother false [.num 1]),
          some (.attributeError "clear")) :=
  ⟨((C10_clear_before_typecheck [("refs", .obj [("x", .null)])] [("x", .null)] "x" 0
      (fun _ => PyObj.pother true [.num 1]) [.num 1] rfl rfl).1 rfl).2,
    (C10_clear_before_typecheck [("refs", .obj [("x", .null)])] [("x", .null)] "x" 0
      (fun _ => PyObj.pother false [.num 1]) [.num 1] rfl rfl).2 rfl⟩

/-! ## C4 -/

lemma find?_childSet_self (l : List (String × Selector)) (k : String) (c : Selector) :
    (childSet l k c).find? (fun e => e.1 = k) = some (k, c) := by
  induction l with
  | nil => simp [childSet]
  | cons hd tl ih =>
      obtain ⟨k0, c0⟩ := hd
      by_cases hk : k0 = k
      · simp [childSet, hk]
      · rw [show childSet ((k0, c0) :: tl) k c = (k0, c0) :: childSet tl k c by
          simp [childSet, hk]]
        rw [List.find?_cons_of_neg _ (by simp [hk])]
        exact ih

lemma child_withChild_self (s : Selector) (k : String) (c : Selector) :
    (s.withChild k c).child k = some c := by
  unfold Selector.withChild Selector.child
  obtain ⟨d, v, ch⟩ := s
  simp only [Selector.children]
  rw [find?_childSet_self]

lemma valueAt_selImportPath (path : List String) (v : JVal) (s : Selector) :
    (selImportPath s path v).valueAt path = some v := by
  induction path generalizing s with
  | nil =>
      obtain ⟨d, w, ch⟩ := s
      rfl
  | cons k rest ih =>
      simp only [selImportPath, Selector.valueAt]
      rw [child_withChild_self]
      exact ih _

/-- C4 (confirmed): a bound method call whose response carries the selector
mapping `{"a.b": v}` against a caller exposing top-level selector `a`
updates the caller's selector tree so that the value at path `a.b` becomes
`v`; if the caller does not expose a top-level selector `a`, the call
raises `ClippyInvalidSelectorError`. -/
theorem C4_selector_update (attrs : List (String × Selector)) (s : Selector) (v : JVal) :
    (attrs.find? (fun e => e.1 = "a") = some ("a", s) →
      applySelectors attrs [("a.b", v)] =
          .ok (childSet attrs "a" (selImportPath s ["b"] v)) ∧
        (selImportPath s ["b"] v).valueAt ["b"] = some v) ∧
    (attrs.find? (fun e => e.1 = "a") = none →
      applySelectors attrs [("a.b", v)] =
        .error (.clippyInvalidSelectorError "selector a not found in class; aborting")) := by
  have hred : applySelectors attrs [("a.b", v)] =
      match attrs.find? (fun e => e.1 = "a") with
      | none => .error (.clippyInvalidSelectorError
          ("selector " ++ "a" ++ " not found in class; aborting"))
      | some e => applySelectors (childSet attrs "a" (selImportPath e.2 ["b"] v)) [] := rfl
  constructor
  · intro hfind
    constructor
    · rw [hred, hfind]
      rfl
    · exact valueAt_selImportPath ["b"] v s
  · intro hfind
    rw [hred, hfind]
    rfl

/-- C4 witness: a caller exposing selector `a` ends with value `5` at path
`a.b`; a caller exposing only `z` raises the invalid-selector error. -/
theorem C4_selector_update_witness :
    applySelectors [("a", Selector.mk "sel a" none [])] [("a.b", .num 5)] =
        .ok (childSet [("a", Selector.mk "sel a" none [])] "a"
          (selImportPath (Selector.mk "sel a" none []) ["b"] (.num 5))) ∧
      (selImportPath (Selector.mk "sel a" none []) ["b"] (.num 5)).valueAt ["b"] =
        some (.num 5) ∧
      applySelectors [("z", Selector.mk "sel z" none [])] [("a.b", .num 5)] =
        .error (.clippyInvalidSelectorError "selector a not found in class; aborting") :=
  ⟨((C4_selector_update [("a", Selector.mk "sel a" none [])]
      (Selector.mk "sel a" none []) (.num 5)).1 rfl).1,
    ((C4_selector_update [("a", Selector.mk "sel a" none [])]
      (Selector.mk "sel a" none []) (.num 5)).1 rfl).2,
    (C4_selector_update [("z", Selector.mk "sel z" none [])]
      (Selector.mk "sel z" none []) (.num 5)).2 rfl⟩
